import Mathlib

/-!
Verification of the smart-notes-app text-enrichment pipeline.

Shallow embedding of the Python backend (`backend/services/nlp_processor.py`,
`backend/services/summarizer.py`, `backend/services/image_to_text.py`,
`backend/services/speech_to_text.py`, `backend/app.py`) into Lean 4.

Modelling conventions:
* Python strings are Lean `String`s; `len`, slicing and `split` work on
  characters (code points), matching CPython semantics (ASCII-faithful for
  case mapping).  String primitives are re-implemented over `List Char` by
  structural recursion so that every definition evaluates inside the kernel.
* Python floats are modelled as `ℚ` (exact rationals); the numeric claims
  under scrutiny are about the arithmetic expressions, not IEEE rounding.
* External ML models (transformer pipelines, TextBlob, the TF-IDF
  vectorizer, audio decoding) are oracles: explicit function or `Option`
  parameters.  Code paths that catch an exception raised by such a call are
  modelled with `Except`-valued oracles.
-/

namespace SmartNotes

/-! ## Python string primitives -/

/-- Python whitespace for `str.split()` / `str.strip()` / regex `\s`. -/
def pyIsSpace (c : Char) : Bool :=
  c = ' ' || c = '\t' || c = '\n' || c = '\r' || c = '\x0b' || c = '\x0c'

/-- Split a character list at every character satisfying `p`, keeping empty
segments (the behaviour of Python `str.split(sep)` for one-char `sep`). -/
def splitPred (p : Char → Bool) : List Char → List (List Char)
  | [] => [[]]
  | x :: xs =>
    match splitPred p xs with
    | [] => [[]]
    | seg :: rest => if p x then [] :: seg :: rest else (x :: seg) :: rest

/-- `needle` occurs at the head of `hay`. -/
def headMatches : List Char → List Char → Bool
  | [], _ => true
  | _ :: _, [] => false
  | a :: as, b :: bs => a = b && headMatches as bs

/-- Fuelled worker for multi-character separator split (Python
`str.split(sep)`): scan left to right, cutting at each non-overlapping
occurrence of `sep`, keeping empty segments. -/
def splitSepAux (sep : List Char) : ℕ → List Char → List (List Char)
  | _, [] => [[]]
  | 0, l => [l]
  | fuel + 1, x :: xs =>
    if headMatches sep (x :: xs) && !sep.isEmpty then
      [] :: splitSepAux sep fuel ((x :: xs).drop sep.length)
    else
      match splitSepAux sep fuel xs with
      | [] => [[]]
      | seg :: rest => (x :: seg) :: rest

/-- Python `s.split(sep)` for a non-empty separator string. -/
def pySplitOn (s sep : String) : List String :=
  (splitSepAux sep.toList s.toList.length s.toList).map String.mk

/-- Python `text.split()` — split on runs of whitespace, dropping empties. -/
def pySplitWs (s : String) : List String :=
  ((splitPred pyIsSpace s.toList).map String.mk).filter (fun t => t ≠ "")

/-- Python `s.strip()` — drop leading and trailing whitespace. -/
def pyStrip (s : String) : String :=
  String.mk (((s.toList.dropWhile pyIsSpace).reverse.dropWhile pyIsSpace).reverse)

/-- Python `sub in s` (substring containment), via non-overlapping split. -/
def pyContains (s sub : String) : Bool :=
  2 ≤ (pySplitOn s sub).length

/-- Python `s.lower()` (ASCII case mapping). -/
def pyLower (s : String) : String :=
  String.mk (s.toList.map Char.toLower)

/-- Python `s[:n]` (slice of the first `n` code points). -/
def pyTake (s : String) (n : ℕ) : String :=
  String.mk (s.toList.take n)

/-- Python string join: the elements of the list interleaved with `sep`. -/
def pyJoin (sep : String) : List String → String
  | [] => ""
  | [x] => x
  | x :: y :: rest => x ++ sep ++ pyJoin sep (y :: rest)

/-- Stable insertion (descending by `key`), modelling one step of Python's
stable `sorted(..., reverse=True)`. -/
def insertDescBy {α β : Type} [LinearOrder β] (key : α → β) (x : α) :
    List α → List α
  | [] => [x]
  | y :: ys => if key x < key y then y :: insertDescBy key x ys else x :: y :: ys

/-- Stable descending sort by `key` (models Python's stable descending sort). -/
def sortDescBy {α β : Type} [LinearOrder β] (key : α → β) : List α → List α
  | [] => []
  | x :: xs => insertDescBy key x (sortDescBy key xs)

theorem insertDescBy_perm {α β : Type} [LinearOrder β] (key : α → β) (x : α)
    (l : List α) : List.Perm (insertDescBy key x l) (x :: l) := by
  induction l with
  | nil => simp [insertDescBy]
  | cons y ys ih =>
    simp only [insertDescBy]
    split
    · exact (ih.cons y).trans (List.Perm.swap x y ys)
    · exact List.Perm.refl _

theorem sortDescBy_perm {α β : Type} [LinearOrder β] (key : α → β)
    (l : List α) : List.Perm (sortDescBy key l) l := by
  induction l with
  | nil => exact List.Perm.refl _
  | cons x xs ih =>
    exact (insertDescBy_perm key x (sortDescBy key xs)).trans (ih.cons x)

/-! ## `NLPProcessor` (backend/services/nlp_processor.py) -/

/-- `NLPProcessor._clean_text`: lowercase, keep only `[a-zA-Z\s]`,
collapse whitespace. -/
def clean_text (text : String) : String :=
  let lowered := pyLower text
  let kept := String.mk (lowered.toList.filter (fun c => c.isAlpha || pyIsSpace c))
  pyJoin " " (pySplitWs kept)

/-- The manual stopword list of `NLPProcessor._simple_keyword_extraction`. -/
def stop_words : List String :=
  ["the", "a", "an", "and", "or", "but", "in", "on", "at", "to", "for",
   "of", "with", "by", "is", "are", "was", "were", "be", "been", "have",
   "has", "had", "do", "does", "did", "will", "would", "could", "should",
   "may", "might", "can", "this", "that", "these", "those"]

/-- One step of building the Python `word_freq` dict: bump the count of `w`,
inserting it at the end on first occurrence (dicts preserve insertion order). -/
def bumpFreq (acc : List (String × ℕ)) (w : String) : List (String × ℕ) :=
  if (acc.lookup w).isSome then
    acc.map (fun p => if p.1 = w then (p.1, p.2 + 1) else p)
  else
    acc ++ [(w, 1)]

/-- The `word_freq` dict of `_simple_keyword_extraction`, as an
insertion-ordered association list. -/
def countFreq (ws : List String) : List (String × ℕ) :=
  ws.foldl bumpFreq []

/-- `NLPProcessor._simple_keyword_extraction`: split, drop stopwords and
short words, count frequencies, sort descending by frequency (stable),
take `max_keywords`, return the words. -/
def simple_keyword_extraction (text : String) (maxKeywords : ℕ) : List String :=
  let words := pySplitWs text
  let filtered := words.filter (fun w => ¬ w ∈ stop_words ∧ 2 < w.length)
  let sorted := sortDescBy (fun p => p.2) (countFreq filtered)
  (sorted.take maxKeywords).map Prod.fst

/-- `NLPProcessor.extract_keywords_fallback`: clean, then simple extraction. -/
def extract_keywords_fallback (text : String) (maxKeywords : ℕ) : List String :=
  simple_keyword_extraction (clean_text text) maxKeywords

/-- `NLPProcessor.extract_keywords`.  The sklearn `TfidfVectorizer` is the
oracle `tfidf`: given the cleaned document it either returns the
`(feature_name, score)` pairs or raises (`Except.error`), in which case the
code falls back to `extract_keywords_fallback` on the cleaned text. -/
def extract_keywords (tfidf : String → Except String (List (String × ℚ)))
    (text : String) (maxKeywords : ℕ) : List String :=
  let cleaned := clean_text text
  if (pySplitWs cleaned).length < 5 then
    pySplitWs cleaned
  else
    match tfidf cleaned with
    | .ok pairs =>
      let sorted := sortDescBy (fun p => p.2) pairs
      (((sorted.filter (fun p => 0 < p.2)).map Prod.fst).take maxKeywords)
    | .error _ => extract_keywords_fallback cleaned maxKeywords

/-- `NLPProcessor.analyze_sentiment_fallback`: TextBlob polarity is the
oracle `polarity`; thresholds ±0.1. -/
def analyze_sentiment_fallback (polarity : String → ℚ) (text : String) : String :=
  if 1/10 < polarity text then "positive"
  else if polarity text < -(1/10) then "negative"
  else "neutral"

/-- The `sentiment_mapping` dict of `analyze_sentiment_cuda`. -/
def sentiment_mapping : List (String × String) :=
  [("positive", "positive"), ("negative", "negative"), ("neutral", "neutral"),
   ("label_2", "positive"), ("label_1", "neutral"), ("label_0", "negative")]

/-- `NLPProcessor.analyze_sentiment_cuda`.  The transformer pipeline is the
oracle `analyzer` (`none` when `self.sentiment_analyzer` is `None`); it
returns the raw label (lowercased by the code) and the confidence score.
Input is truncated to 500 characters before classification. -/
def analyze_sentiment_cuda (analyzer : Option (String → String × ℚ))
    (polarity : String → ℚ) (text : String) : String :=
  match analyzer with
  | none => analyze_sentiment_fallback polarity text
  | some f =>
    let t := if 500 < text.length then pyTake text 500 else text
    let label := pyLower (f t).1
    let confidence := (f t).2
    let mapped := (sentiment_mapping.lookup label).getD "neutral"
    if confidence < 3/5 then "neutral" else mapped

/-- The statistics mapping returned by `NLPProcessor.get_text_statistics`. -/
structure TextStatistics where
  word_count : ℕ
  sentence_count : ℕ
  paragraph_count : ℕ
  character_count : ℕ
  avg_words_per_sentence : ℚ
  reading_time_minutes : ℚ
  deriving Repr, DecidableEq

/-- `NLPProcessor.get_text_statistics`: counts from `text.split()`,
`text.split('.')` and `text.split('\n\n')`; a segment counts when it is
non-blank (`s.strip()` truthy).  Float divisions are exact in `ℚ`. -/
def get_text_statistics (text : String) : TextStatistics :=
  let words := pySplitWs text
  let sentences := (pySplitOn text ".").filter (fun s => pyStrip s ≠ "")
  let paragraphs := (pySplitOn text "\n\n").filter (fun p => pyStrip p ≠ "")
  { word_count := words.length
    sentence_count := sentences.length
    paragraph_count := paragraphs.length
    character_count := text.length
    avg_words_per_sentence := (words.length : ℚ) / (max sentences.length 1 : ℕ)
    reading_time_minutes := (words.length : ℚ) / 200 }

/-! ## `Summarizer` (backend/services/summarizer.py) -/

/-- The sentence list built at the top of `Summarizer._fallback_summary`:
split on `'.'`, strip each piece, drop the empty ones. -/
def stripped_sentences (text : String) : List String :=
  ((pySplitOn text ".").map pyStrip).filter (fun s => s ≠ "")

/-- `Summarizer._fallback_summary`: `≤ 2` sentences → original text;
otherwise first 3 (if more than 5 total) or first 2, joined with `". "`
plus a trailing period. -/
def fallback_summary (text : String) : String :=
  let sentences := stripped_sentences text
  if sentences.length ≤ 2 then text
  else
    let summarySentences :=
      if 5 < sentences.length then sentences.take 3 else sentences.take 2
    pyJoin ". " summarySentences ++ "."

/-- The accumulated `current_chunk` string of `Summarizer._split_text`,
rendered from the list of sentences it holds: each sentence is appended
followed by `". "`. -/
def renderCur : List String → String
  | [] => ""
  | s :: rest => s ++ ". " ++ renderCur rest

/-- A finished chunk as appended by `_split_text`: the accumulated string,
stripped. -/
def renderChunk (cur : List String) : String :=
  pyStrip (renderCur cur)

/-- The accumulation loop of `Summarizer._split_text`, translated at string
level: `chunks` and `current_chunk` are the Python loop state. -/
def split_text_loop (maxChunkSize : ℕ) :
    List String → List String → String → List String
  | [], chunks, current =>
    if current ≠ "" then chunks ++ [pyStrip current] else chunks
  | s :: rest, chunks, current =>
    if current.length + s.length + 2 ≤ maxChunkSize then
      split_text_loop maxChunkSize rest chunks (current ++ (s ++ ". "))
    else
      let chunks2 := if current ≠ "" then chunks ++ [pyStrip current] else chunks
      split_text_loop maxChunkSize rest chunks2 (s ++ ". ")

/-- `Summarizer._split_text`: sentence-aligned chunking on `". "` boundaries. -/
def split_text (text : String) (maxChunkSize : ℕ) : List String :=
  if text.length ≤ maxChunkSize then [text]
  else split_text_loop maxChunkSize (pySplitOn text ". ") [] ""

/-- The sentence-level accounting of `_split_text`'s loop: the same control
flow, but each chunk is kept as the list of sentences it accumulates. -/
def chunk_loop (maxChunkSize : ℕ) :
    List String → List (List String) → List String → List (List String)
  | [], acc, cur => if cur ≠ [] then acc ++ [cur] else acc
  | s :: rest, acc, cur =>
    if (renderCur cur).length + s.length + 2 ≤ maxChunkSize then
      chunk_loop maxChunkSize rest acc (cur ++ [s])
    else
      let acc2 := if cur ≠ [] then acc ++ [cur] else acc
      chunk_loop maxChunkSize rest acc2 [s]

/-- `_split_text`'s chunks, as lists of the sentences assigned to them. -/
def chunk_sentences (sentences : List String) (maxChunkSize : ℕ) :
    List (List String) :=
  chunk_loop maxChunkSize sentences [] []

/-- A call into the BART summarization pipeline: chunk text, `max_length`,
`min_length` → a summary, or a raised exception (`Except.error`). -/
def SummPipe : Type := String → ℕ → ℕ → Except String String

/-- `Summarizer.summarize` (source defaults `max_length=150`,
`min_length=30`).  `pipeline` models `self.summarizer` (`none` when the
model failed to load).  Exceptions from pipeline calls are caught exactly
where the source catches them: per chunk in the chunked path (substituting
`_fallback_summary` of that chunk), and around the whole call otherwise
(substituting `_fallback_summary` of the whole text). -/
def summarize (pipeline : Option SummPipe) (text : String)
    (maxLength minLength : ℕ) : String :=
  match pipeline with
  | none => fallback_summary text
  | some f =>
    let wordCount := (pySplitWs text).length
    if wordCount < 15 then text
    else
      let maxLength2 :=
        if wordCount < 50 then max (wordCount / 2) 15
        else if wordCount < 100 then min maxLength (max (wordCount / 2) 20)
        else maxLength
      let minLength2 :=
        if wordCount < 50 then max (wordCount / 4) 5
        else if wordCount < 100 then min minLength (max (maxLength2 / 3) 10)
        else minLength
      if 800 < text.length then
        let chunks := split_text text 800
        let summaries := chunks.map (fun c =>
          match f c maxLength2 minLength2 with
          | .ok s => s
          | .error _ => fallback_summary c)
        pyJoin " " summaries
      else
        match f text maxLength2 minLength2 with
        | .ok s => s
        | .error _ => fallback_summary text

/-! ## `ImageToText` (backend/services/image_to_text.py) -/

/-- `ImageToText._select_best_text`: priority
`document_text > ocr_text > caption` with the source's truthiness, length
and `'error' not in x.lower()` guards. -/
def select_best_text (docText ocrText caption : String) : String :=
  if docText ≠ "" && decide (10 < docText.length) && !(pyContains (pyLower docText) "error") then
    docText
  else if ocrText ≠ "" && decide (5 < ocrText.length) && !(pyContains (pyLower ocrText) "error") then
    ocrText
  else if caption ≠ "" && !(pyContains (pyLower caption) "error") then
    caption
  else
    "No text could be extracted from the image"

/-- The selection policy exactly as the specification words it: walk the
candidates in priority order with their minimum lengths (`document_text`
more than 10, `ocr_text` more than 5, `caption` merely non-empty), pick the
first non-empty, long-enough, non-error candidate, else the no-text
sentinel. -/
def spec_selection_policy (docText ocrText caption : String) : String :=
  let usable : String × ℕ → Bool := fun p =>
    p.1 ≠ "" && decide (p.2 < p.1.length) && !(pyContains (pyLower p.1) "error")
  match [(docText, 10), (ocrText, 5), (caption, 0)].find? usable with
  | some p => p.1
  | none => "No text could be extracted from the image"

/-! ## `SpeechToText` (backend/services/speech_to_text.py) -/

/-- `SpeechToText._select_best_transcription` over the `results` dict. -/
def select_best_transcription (results : List (String × String)) : String :=
  let whisperText := (results.lookup "whisper").getD ""
  let srText := (results.lookup "speech_recognition").getD ""
  if whisperText ≠ "" && !(pyContains (pyLower whisperText) "error") && decide (5 < whisperText.length) then
    whisperText
  else if srText ≠ "" && !(pyContains (pyLower srText) "error") && decide (0 < srText.length) then
    srText
  else
    "Could not transcribe audio"

/-- `SpeechToText.transcribe_audio`.  `prepared` is the outcome of
`_prepare_audio` (`none` on any decoding failure, e.g. undecodable base64 —
`_prepare_audio` catches its own exceptions and returns `None`).
`whisperAvailable` models `self.whisper_pipeline` being set; `whisperText`
and `srText` are the oracle outputs of the two transcription helpers (each
already catches its own exceptions and returns an error string instead of
raising).  The returned dict is an insertion-ordered association list. -/
def transcribe_audio (prepared : Option (List ℚ × ℕ))
    (whisperAvailable : Bool) (whisperText srText : String) :
    List (String × String) :=
  match prepared with
  | none => [("error", "Invalid audio data")]
  | some _ =>
    let results :=
      (if whisperAvailable then [("whisper", whisperText)] else [])
        ++ [("speech_recognition", srText)]
    results ++ [("transcription", select_best_transcription results)]

/-! ## Orchestrator: `process_text_with_ai` (backend/app.py) -/

/-- Python `text[:100] + "..." if len(text) > 100 else text`. -/
def truncate100 (text : String) : String :=
  if 100 < text.length then pyTake text 100 ++ "..." else text

/-- The `statistics` value assembled by `process_text_with_ai`: the full
mapping from `get_text_statistics`, or the `{"word_count": ...}` singleton
used on the degraded paths. -/
inductive StatsResult where
  | full (s : TextStatistics)
  | wordOnly (n : ℕ)
  deriving Repr, DecidableEq

/-- One enrichment 4-tuple `(summary, keywords, sentiment, statistics)`. -/
def Enrichment : Type := String × List String × String × StatsResult

/-- The AI service handles visible to `process_text_with_ai`:
`summarizerSvc` is the module-level `summarizer` (`none` if construction
failed), holding `self.summarizer` (`none` if the model failed to load);
`nlpSvc` is `nlp_processor`, whose `process_text` may raise. -/
structure AIEnv where
  summarizerSvc : Option (Option SummPipe)
  nlpSvc : Option (String → Except String (List String × String))

/-- The body of the `try:` block of `process_text_with_ai`. -/
def process_text_with_ai_body (env : AIEnv) (text : String) :
    Except String Enrichment := do
  let summary ←
    match env.summarizerSvc with
    | some (some f) => pure (summarize (some f) text 150 30)
    | _ => pure (truncate100 text)
  match env.nlpSvc with
  | some nlp => do
    let kwSent ← nlp text
    pure (summary, kwSent.1, kwSent.2, StatsResult.full (get_text_statistics text))
  | none =>
    pure (summary, [], "neutral", StatsResult.wordOnly (pySplitWs text).length)

/-- The fallback 4-tuple built in the `except:` handler. -/
def ai_fallback (text : String) : Enrichment :=
  (truncate100 text, [], "neutral", StatsResult.wordOnly (pySplitWs text).length)

/-- `process_text_with_ai`: run the body; any raised exception is caught and
replaced by the fallback 4-tuple. -/
def process_text_with_ai (env : AIEnv) (text : String) : Enrichment :=
  match process_text_with_ai_body env text with
  | .ok r => r
  | .error _ => ai_fallback text

/-- `process_text_with_ai` as the caller observes it: a computation that
either returns a 4-tuple (`Except.ok`) or raises (`Except.error`). -/
def process_text_with_ai_run (env : AIEnv) (text : String) :
    Except String Enrichment :=
  match process_text_with_ai_body env text with
  | .ok r => .ok r
  | .error _ => .ok (ai_fallback text)

/-! ## Helper lemmas -/

theorem string_ne_empty_iff (a : String) : a ≠ "" ↔ 0 < a.length := by
  constructor
  · intro h
    by_contra hlen
    apply h
    cases a with
    | mk l =>
      cases l with
      | nil => rfl
      | cons c cs => exact absurd (by simp [String.length]) hlen
  · intro h heq
    subst heq
    exact absurd h (by decide)

theorem sentiment_mapping_getD (k : String) :
    (sentiment_mapping.lookup k).getD "neutral" = "positive" ∨
    (sentiment_mapping.lookup k).getD "neutral" = "negative" ∨
    (sentiment_mapping.lookup k).getD "neutral" = "neutral" := by
  simp only [sentiment_mapping, List.lookup]
  repeat' split
  all_goals simp

/-! ## Claim theorems -/

/-- C1.  The sentiment classifier returns only `"positive"`, `"negative"`
or `"neutral"` — on the primary path (any analyzer oracle and any label it
may produce) and on the TextBlob fallback path alike; and whenever the
primary path runs with a confidence score below 0.6, the result is
`"neutral"` regardless of the label. -/
theorem sentiment_range_and_low_confidence_neutral
    (analyzer : Option (String → String × ℚ)) (polarity : String → ℚ)
    (text : String) :
    (analyze_sentiment_cuda analyzer polarity text = "positive" ∨
     analyze_sentiment_cuda analyzer polarity text = "negative" ∨
     analyze_sentiment_cuda analyzer polarity text = "neutral") ∧
    (∀ f, analyzer = some f →
      (f (if 500 < text.length then pyTake text 500 else text)).2 < 3/5 →
      analyze_sentiment_cuda analyzer polarity text = "neutral") := by
  constructor
  · cases analyzer with
    | none =>
      simp only [analyze_sentiment_cuda, analyze_sentiment_fallback]
      split
      · simp
      · split <;> simp
    | some f =>
      simp only [analyze_sentiment_cuda]
      split
      all_goals split
      all_goals first
        | simp
        | exact sentiment_mapping_getD _
  · intro f hf hconf
    subst hf
    simp only [analyze_sentiment_cuda]
    rw [if_pos hconf]

/-- C1 witness: a concrete primary-path run with confidence 1/2 < 0.6 and a
positive label still yields `"neutral"`. -/
theorem sentiment_low_confidence_neutral_witness :
    analyze_sentiment_cuda (some (fun _ => ("positive", 1/2))) (fun _ => 0)
      "what a great day" = "neutral" :=
  (sentiment_range_and_low_confidence_neutral
      (some (fun _ => ("positive", 1/2))) (fun _ => 0) "what a great day").2
    (fun _ => ("positive", 1/2)) rfl (by norm_num)

/-- C2.  The text statistics are computed deterministically (the embedding
is a pure function of the text) and satisfy the stated contract:
`word_count` counts whitespace-split tokens, `sentence_count` counts the
non-blank `'.'`-segments, `paragraph_count` the non-blank blank-line
(`"\n\n"`) segments, `character_count` is the raw length, and within the
returned record `avg_words_per_sentence = word_count / max(sentence_count, 1)`
and `reading_time_minutes = word_count / 200` hold exactly. -/
theorem text_statistics_contract (text : String) :
    (get_text_statistics text).word_count = (pySplitWs text).length ∧
    (get_text_statistics text).sentence_count =
      ((pySplitOn text ".").filter (fun s => pyStrip s ≠ "")).length ∧
    (get_text_statistics text).paragraph_count =
      ((pySplitOn text "\n\n").filter (fun p => pyStrip p ≠ "")).length ∧
    (get_text_statistics text).character_count = text.length ∧
    (get_text_statistics text).avg_words_per_sentence =
      ((get_text_statistics text).word_count : ℚ) /
        (max (get_text_statistics text).sentence_count 1 : ℕ) ∧
    (get_text_statistics text).reading_time_minutes =
      ((get_text_statistics text).word_count : ℚ) / 200 := by
  simp [get_text_statistics]

theorem lookup_isSome_of_mem_keys {w : String} :
    ∀ acc : List (String × ℕ), w ∈ acc.map Prod.fst → (acc.lookup w).isSome := by
  intro acc
  induction acc with
  | nil => simp
  | cons p rest ih =>
    intro hmem
    simp only [List.map_cons, List.mem_cons] at hmem
    by_cases hw : w = p.1
    · simp [List.lookup, hw]
    · have : w ∈ rest.map Prod.fst := by
        rcases hmem with h | h
        · exact absurd h hw
        · exact h
      have hbe : (w == p.1) = false := beq_false_of_ne hw
      obtain ⟨k, v⟩ := p
      simp only [List.lookup, hbe]
      exact ih this

theorem bumpFreq_keys_nodup (acc : List (String × ℕ)) (w : String)
    (h : (acc.map Prod.fst).Nodup) : ((bumpFreq acc w).map Prod.fst).Nodup := by
  unfold bumpFreq
  split
  · have heq : (acc.map (fun p => if p.1 = w then (p.1, p.2 + 1) else p)).map Prod.fst
        = acc.map Prod.fst := by
      rw [List.map_map]
      apply List.map_congr_left
      intro p _
      by_cases hp : p.1 = w <;> simp [hp]
    rw [heq]
    exact h
  · rename_i hnone
    have hw : w ∉ acc.map Prod.fst := by
      intro hmem
      exact hnone (lookup_isSome_of_mem_keys acc hmem)
    simp [List.nodup_append, h, hw]

theorem countFreq_keys_nodup (ws : List String) :
    ((countFreq ws).map Prod.fst).Nodup := by
  suffices h : ∀ acc : List (String × ℕ), (acc.map Prod.fst).Nodup →
      ((ws.foldl bumpFreq acc).map Prod.fst).Nodup by
    exact h [] (by simp)
  induction ws with
  | nil => intro acc h; exact h
  | cons w rest ih =>
    intro acc h
    exact ih _ (bumpFreq_keys_nodup acc w h)

theorem simple_keyword_extraction_nodup (text : String) (k : ℕ) :
    (simple_keyword_extraction text k).Nodup := by
  unfold simple_keyword_extraction
  have hperm := sortDescBy_perm (fun p : String × ℕ => p.2)
    (countFreq ((pySplitWs text).filter (fun w => ¬ w ∈ stop_words ∧ 2 < w.length)))
  have hkeys := ((hperm.map Prod.fst).symm).nodup
    (countFreq_keys_nodup ((pySplitWs text).filter (fun w => ¬ w ∈ stop_words ∧ 2 < w.length)))
  rw [List.map_take]
  exact hkeys.sublist (List.take_sublist _ _)

theorem simple_keyword_extraction_length (text : String) (k : ℕ) :
    (simple_keyword_extraction text k).length ≤ k := by
  unfold simple_keyword_extraction
  rw [List.length_map]
  exact List.length_take_le _ _

/-- C3 (amended).  The keyword extractor returns at most 10 keywords on
every path; the TF-IDF path (given the vectorizer's distinct feature names)
and both fallback paths return duplicate-free lists; the
fewer-than-5-tokens short-circuit returns the cleaned token list verbatim,
which is why it is exempted from the no-duplicates part (see the
counterexample). -/
theorem extract_keywords_bounded_and_nodup
    (tfidf : String → Except String (List (String × ℚ))) (text : String) :
    (extract_keywords tfidf text 10).length ≤ 10 ∧
    (¬ (pySplitWs (clean_text text)).length < 5 →
      (∀ pairs, tfidf (clean_text text) = .ok pairs →
        (pairs.map Prod.fst).Nodup → (extract_keywords tfidf text 10).Nodup) ∧
      (∀ e, tfidf (clean_text text) = .error e →
        (extract_keywords tfidf text 10).Nodup)) ∧
    (extract_keywords_fallback text 10).length ≤ 10 ∧
    (extract_keywords_fallback text 10).Nodup := by
  refine ⟨?_, ?_, ?_, ?_⟩
  · simp only [extract_keywords]
    split
    · rename_i hshort
      exact le_trans (le_of_lt hshort) (by norm_num)
    · split
      · exact List.length_take_le _ _
      · exact simple_keyword_extraction_length _ _
  · intro hshort
    constructor
    · intro pairs hok hnodup
      simp only [extract_keywords, if_neg hshort, hok]
      have hperm := sortDescBy_perm (fun p : String × ℚ => p.2) pairs
      have h1 : ((sortDescBy (fun p : String × ℚ => p.2) pairs).map Prod.fst).Nodup :=
        ((hperm.map Prod.fst).symm).nodup hnodup
      have h2 := (List.filter_sublist
        (l := sortDescBy (fun p : String × ℚ => p.2) pairs)
        (p := fun p => decide (0 < p.2))).map Prod.fst
      exact (h1.sublist h2).sublist (List.take_sublist _ _)
    · intro e herr
      simp only [extract_keywords, if_neg hshort, herr]
      exact simple_keyword_extraction_nodup _ _
  · exact simple_keyword_extraction_length _ _
  · exact simple_keyword_extraction_nodup _ _

/-- C3 counterexample: on the fewer-than-5-tokens short-circuit the
extractor returns the cleaned token list verbatim; for
`"hello hello hello"` that list has duplicate entries, refuting the
no-duplicates part of the claim (the TF-IDF oracle is irrelevant here). -/
theorem extract_keywords_short_circuit_duplicates :
    extract_keywords (fun _ => .ok []) "hello hello hello" 10
      = ["hello", "hello", "hello"] ∧
    ¬ (["hello", "hello", "hello"] : List String).Nodup :=
  ⟨by decide, by decide⟩

/-- C3 witness: a concrete 6-token text on the TF-IDF path (with distinct
feature names) and the frequency fallback both yield duplicate-free output. -/
theorem extract_keywords_bounded_and_nodup_witness :
    (extract_keywords (fun _ => .ok [("alpha", 3), ("beta", 2)])
      "alpha beta gamma delta epsilon zeta" 10).Nodup ∧
    (extract_keywords_fallback "alpha beta gamma delta epsilon zeta" 10).Nodup :=
  ⟨((extract_keywords_bounded_and_nodup (fun _ => .ok [("alpha", 3), ("beta", 2)])
      "alpha beta gamma delta epsilon zeta").2.1 (by decide)).1
      [("alpha", 3), ("beta", 2)] rfl (by decide),
   (extract_keywords_bounded_and_nodup (fun _ => .ok [("alpha", 3), ("beta", 2)])
      "alpha beta gamma delta epsilon zeta").2.2.2⟩

/-- C4 counterexample: with the primary pipeline unavailable
(`self.summarizer is None`), the non-empty 4-word input
`"One. Two. Three. Four."` is *not* returned unchanged — `summarize`
reaches `_fallback_summary` before the 15-word check and returns
`"One. Two."`. -/
theorem summarize_short_text_changed_when_model_missing :
    ("One. Two. Three. Four." : String) ≠ "" ∧
    (pySplitWs "One. Two. Three. Four.").length < 15 ∧
    summarize none "One. Two. Three. Four." 150 30 = "One. Two." ∧
    summarize none "One. Two. Three. Four." 150 30 ≠ "One. Two. Three. Four." :=
  ⟨by decide, by decide, by decide, by decide⟩

/-- C4 (amended).  The under-15-words identity holds whenever the primary
pipeline is loaded; when it is not, `summarize` returns the extractive
fallback instead, which returns the input unchanged exactly on texts with
at most 2 non-blank sentences. -/
theorem summarize_short_text_by_tier (f : SummPipe) (maxLength minLength : ℕ)
    (text : String) :
    ((pySplitWs text).length < 15 →
      summarize (some f) text maxLength minLength = text) ∧
    summarize none text maxLength minLength = fallback_summary text ∧
    ((stripped_sentences text).length ≤ 2 → fallback_summary text = text) := by
  refine ⟨?_, rfl, ?_⟩
  · intro h
    simp only [summarize, if_pos h]
  · intro h
    simp only [fallback_summary, if_pos h]

/-- C4 witness: a 4-word text is returned unchanged when the pipeline is
loaded, and its fallback is also the identity (it has one sentence). -/
theorem summarize_short_text_by_tier_witness :
    summarize (some (fun _ _ _ => Except.ok "S")) "a quick short note" 150 30
      = "a quick short note" ∧
    fallback_summary "a quick short note" = "a quick short note" :=
  ⟨(summarize_short_text_by_tier (fun _ _ _ => Except.ok "S") 150 30
      "a quick short note").1 (by decide),
   (summarize_short_text_by_tier (fun _ _ _ => Except.ok "S") 150 30
      "a quick short note").2.2 (by decide)⟩

/-- C5.  `process_text_with_ai` never raises: viewed as an
exception-producing computation it always returns `Except.ok` with the
complete 4-tuple, and whenever the guarded body raises internally, the
returned tuple is exactly the component-fallback tuple of the `except:`
handler. -/
theorem process_text_with_ai_total (env : AIEnv) (text : String) :
    process_text_with_ai_run env text = .ok (process_text_with_ai env text) ∧
    (∀ e, process_text_with_ai_body env text = .error e →
      process_text_with_ai env text = ai_fallback text) := by
  constructor
  · cases hb : process_text_with_ai_body env text with
    | ok r => simp [process_text_with_ai_run, process_text_with_ai, hb]
    | error e => simp [process_text_with_ai_run, process_text_with_ai, hb]
  · intro e he
    simp [process_text_with_ai, he]

/-- C5 witness: with a raising NLP service the orchestrator still returns
(the fallback 4-tuple), as an `Except.ok`. -/
theorem process_text_with_ai_total_witness :
    process_text_with_ai ⟨some none, some (fun _ => .error "boom")⟩ "note text"
      = ai_fallback "note text" ∧
    process_text_with_ai_run ⟨some none, some (fun _ => .error "boom")⟩ "note text"
      = .ok (ai_fallback "note text") := by
  have h := process_text_with_ai_total
    ⟨some none, some (fun _ => .error "boom")⟩ "note text"
  have hb : process_text_with_ai_body
      ⟨some none, some (fun _ => .error "boom")⟩ "note text" = .error "boom" := rfl
  refine ⟨h.2 "boom" hb, ?_⟩
  rw [h.1, h.2 "boom" hb]

/-- C6.  The image adapter's best-candidate choice equals the
specification's priority policy on every input, and on the concrete
candidates `{document_text: "", ocr_text: "valid text here",
caption: "a caption"}` it selects `"valid text here"`. -/
theorem select_best_text_matches_spec (doc ocr cap : String) :
    select_best_text doc ocr cap = spec_selection_policy doc ocr cap ∧
    select_best_text "" "valid text here" "a caption" = "valid text here" := by
  refine ⟨?_, by decide⟩
  have hc : (decide (cap ≠ "")) = (decide (0 < cap.length)) :=
    decide_eq_decide.mpr (string_ne_empty_iff cap)
  simp only [select_best_text, spec_selection_policy, List.find?]
  cases h1 : (decide (doc ≠ "") && decide (10 < doc.length)
      && !(pyContains (pyLower doc) "error")) <;>
  cases h2 : (decide (ocr ≠ "") && decide (5 < ocr.length)
      && !(pyContains (pyLower ocr) "error")) <;>
  cases h3 : (decide (cap ≠ "") && !(pyContains (pyLower cap) "error")) <;>
    try simp_all [← hc, Bool.and_self, Bool.and_assoc]
  by_cases hcp : cap = "" <;> simp_all

/-- C8.  The extractive fallback returns the original text when at most 2
non-blank sentences remain; otherwise the first 3 sentences when more than
5 remain, or the first 2 when between 3 and 5 remain, joined with `". "`
and a trailing period. -/
theorem fallback_summary_characterization (text : String) :
    ((stripped_sentences text).length ≤ 2 → fallback_summary text = text) ∧
    (5 < (stripped_sentences text).length →
      fallback_summary text
        = pyJoin ". " ((stripped_sentences text).take 3) ++ ".") ∧
    (2 < (stripped_sentences text).length → (stripped_sentences text).length ≤ 5 →
      fallback_summary text
        = pyJoin ". " ((stripped_sentences text).take 2) ++ ".") := by
  refine ⟨?_, ?_, ?_⟩
  · intro h
    simp only [fallback_summary, if_pos h]
  · intro h
    have h2 : ¬ (stripped_sentences text).length ≤ 2 := by omega
    simp only [fallback_summary, if_neg h2, if_pos h]
  · intro h h5
    have h2 : ¬ (stripped_sentences text).length ≤ 2 := by omega
    have h5x : ¬ 5 < (stripped_sentences text).length := by omega
    simp only [fallback_summary, if_neg h2, if_neg h5x]

/-- C8 witness: `"One. Two. Three. Four."` has 4 non-blank sentences, so
the fallback is the first two sentences re-joined with a trailing period. -/
theorem fallback_summary_characterization_witness :
    fallback_summary "One. Two. Three. Four."
      = pyJoin ". " ((stripped_sentences "One. Two. Three. Four.").take 2) ++ "." :=
  (fallback_summary_characterization "One. Two. Three. Four.").2.2
    (by decide) (by decide)

/-- C9 counterexample: on a decode failure the returned dict is only
`{"error": "Invalid audio data"}` — it has *no* `transcription` (selected)
entry and no candidate entries, so the claim that `selected` equals the
invalid-data sentinel (with inspectable candidates) fails at this input. -/
theorem transcribe_audio_decode_failure_counterexample :
    (transcribe_audio none true "hello there friend" "hi").lookup "transcription"
      = none ∧
    (transcribe_audio none true "hello there friend" "hi").lookup "whisper" = none ∧
    (transcribe_audio none true "hello there friend" "hi").lookup "error"
      = some "Invalid audio data" :=
  ⟨by decide, by decide, by decide⟩

/-- C9 (amended).  On any decode failure (`_prepare_audio` returned
`None`), `transcribe_audio` raises no exception and returns the
result-level error dict `{"error": "Invalid audio data"}`; that result
contains no `transcription` (selection) entry and no candidate entries. -/
theorem transcribe_audio_decode_failure (whisperAvailable : Bool)
    (whisperText srText : String) :
    transcribe_audio none whisperAvailable whisperText srText
      = [("error", "Invalid audio data")] ∧
    (transcribe_audio none whisperAvailable whisperText srText).lookup
      "transcription" = none ∧
    (transcribe_audio none whisperAvailable whisperText srText).lookup
      "error" = some "Invalid audio data" := by
  have h : transcribe_audio none whisperAvailable whisperText srText
      = [("error", "Invalid audio data")] := rfl
  exact ⟨h, by rw [h]; decide, by rw [h]; decide⟩

/-- C10 (implicit claim).  When the summarizer pipeline handle is `None`
(service object constructed, model load failed), the orchestrator's summary
is the character-level truncation: the text itself at up to 100 characters,
else the first 100 characters plus `"..."` — for every NLP-service state. -/
theorem summarizer_unavailable_summary_truncation
    (nlpSvc : Option (String → Except String (List String × String)))
    (text : String) :
    (process_text_with_ai ⟨some none, nlpSvc⟩ text).1 = truncate100 text ∧
    (text.length ≤ 100 →
      (process_text_with_ai ⟨some none, nlpSvc⟩ text).1 = text) ∧
    (100 < text.length →
      (process_text_with_ai ⟨some none, nlpSvc⟩ text).1
        = pyTake text 100 ++ "...") := by
  have hmain : (process_text_with_ai ⟨some none, nlpSvc⟩ text).1
      = truncate100 text := by
    cases nlpSvc with
    | none => rfl
    | some nlp =>
      cases hn : nlp text with
      | ok kv =>
        simp [process_text_with_ai, process_text_with_ai_body, hn]
      | error e =>
        simp [process_text_with_ai, process_text_with_ai_body, hn, ai_fallback]
  refine ⟨hmain, ?_, ?_⟩
  · intro h
    rw [hmain]
    simp only [truncate100]
    rw [if_neg (by omega)]
  · intro h
    rw [hmain]
    simp only [truncate100]
    rw [if_pos h]

/-- C10 witness: a 2-character note is returned as the summary unchanged,
and a 124-character note is cut to its first 100 characters plus `"..."`. -/
theorem summarizer_unavailable_summary_truncation_witness :
    (process_text_with_ai ⟨some none, none⟩ "hi").1 = "hi" ∧
    (process_text_with_ai ⟨some none, none⟩
      "A long sentence that goes past one hundred characters needs to be truncated by the orchestrator fallback path").1
      = pyTake "A long sentence that goes past one hundred characters needs to be truncated by the orchestrator fallback path" 100 ++ "..." :=
  ⟨(summarizer_unavailable_summary_truncation none "hi").2.1 (by decide),
   (summarizer_unavailable_summary_truncation none
      "A long sentence that goes past one hundred characters needs to be truncated by the orchestrator fallback path").2.2 (by decide)⟩

theorem renderCur_append_single (cur : List String) (s : String) :
    renderCur (cur ++ [s]) = renderCur cur ++ (s ++ ". ") := by
  induction cur with
  | nil => simp [renderCur, String.append_empty, String.empty_append]
  | cons x xs ih => simp [renderCur, ih, String.append_assoc]

theorem renderCur_ne_empty_iff (cur : List String) :
    (renderCur cur ≠ "") ↔ cur ≠ [] := by
  cases cur with
  | nil => simp [renderCur]
  | cons x xs =>
    have hpos : 0 < (renderCur (x :: xs)).length := by
      simp only [renderCur, String.length_append]
      have h2 : (". " : String).length = 2 := rfl
      omega
    constructor
    · intro _ h
      exact List.noConfusion h
    · intro _
      exact (string_ne_empty_iff _).mpr hpos

theorem split_text_loop_renders (m : ℕ) (ss : List String) :
    ∀ (acc : List (List String)) (cur : List String),
    split_text_loop m ss (acc.map renderChunk) (renderCur cur)
      = (chunk_loop m ss acc cur).map renderChunk := by
  induction ss with
  | nil =>
    intro acc cur
    simp only [split_text_loop, chunk_loop]
    by_cases h : cur = []
    · subst h
      simp [renderCur]
    · have h2 : renderCur cur ≠ "" := (renderCur_ne_empty_iff cur).mpr h
      simp only [if_pos h2, ne_eq, h, not_false_eq_true, if_pos]
      rw [List.map_append]
      rfl
  | cons s rest ih =>
    intro acc cur
    simp only [split_text_loop, chunk_loop]
    by_cases hle : (renderCur cur).length + s.length + 2 ≤ m
    · rw [if_pos hle, if_pos hle, ← renderCur_append_single]
      exact ih acc (cur ++ [s])
    · rw [if_neg hle, if_neg hle]
      have hs : (s ++ ". " : String) = renderCur [s] := by
        simp [renderCur, String.append_empty]
      by_cases h : cur = []
      · subst h
        have hne : ¬ (renderCur ([] : List String) ≠ "") := by simp [renderCur]
        rw [if_neg hne, if_neg (by simp)]
        rw [hs]
        exact ih acc [s]
      · have h2 : renderCur cur ≠ "" := (renderCur_ne_empty_iff cur).mpr h
        rw [if_pos h2, if_pos h]
        rw [hs]
        have hmap : acc.map renderChunk ++ [pyStrip (renderCur cur)]
            = (acc ++ [cur]).map renderChunk := by
          rw [List.map_append]
          rfl
        rw [hmap]
        exact ih (acc ++ [cur]) [s]

theorem chunk_loop_join (m : ℕ) (ss : List String) :
    ∀ (acc : List (List String)) (cur : List String),
    (chunk_loop m ss acc cur).flatten = acc.flatten ++ cur ++ ss := by
  induction ss with
  | nil =>
    intro acc cur
    simp only [chunk_loop]
    by_cases h : cur = []
    · subst h
      simp
    · simp [h]
  | cons s rest ih =>
    intro acc cur
    simp only [chunk_loop]
    by_cases hle : (renderCur cur).length + s.length + 2 ≤ m
    · rw [if_pos hle, ih]
      simp
    · rw [if_neg hle]
      by_cases h : cur = []
      · subst h
        rw [if_neg (by simp), ih]
        simp
      · rw [if_pos h, ih]
        simp

/-- C7.  For any text over the 800-character chunk threshold, `_split_text`
is exactly the rendering of a sentence-level accounting (`chunk_sentences`)
of the `". "`-split sentence list, and that accounting concatenates back to
the original sentence list: every sentence lands in exactly one chunk, in
the original order, none dropped, none duplicated. -/
theorem split_text_partitions_sentences (text : String)
    (h : 800 < text.length) :
    split_text text 800
      = (chunk_sentences (pySplitOn text ". ") 800).map renderChunk ∧
    (chunk_sentences (pySplitOn text ". ") 800).flatten = pySplitOn text ". " := by
  constructor
  · simp only [split_text, chunk_sentences]
    rw [if_neg (by omega)]
    have hloop := split_text_loop_renders 800 (pySplitOn text ". ")
      ([] : List (List String)) ([] : List String)
    simpa [renderCur] using hloop
  · simp only [chunk_sentences]
    rw [chunk_loop_join]
    simp

/-- C7 witness: a concrete 900-character text (one long sentence) exceeds
the threshold, is chunked, and the accounting concatenates back to its
sentence list. -/
theorem split_text_partitions_sentences_witness :
    split_text (String.mk (List.replicate 900 'a')) 800
      = (chunk_sentences (pySplitOn (String.mk (List.replicate 900 'a')) ". ") 800).map
          renderChunk ∧
    (chunk_sentences (pySplitOn (String.mk (List.replicate 900 'a')) ". ") 800).flatten
      = pySplitOn (String.mk (List.replicate 900 'a')) ". " :=
  split_text_partitions_sentences (String.mk (List.replicate 900 'a'))
    (by rw [String.length_mk, List.length_replicate]; norm_num)

end SmartNotes
